import Mathlib

/-!
Verification of the HMS billing core: the GST tax calculator
(`src/backend/src/billing/utils/tax-calculator.ts`) and the bill assembler
(`BillingService` in `billing.service.ts`).

The embedding uses exact rational arithmetic (`ℚ`) for JavaScript numbers.
`Math.round(v)` is `⌊v + 1/2⌋` (round half towards +∞), so the calculator's
`roundToTwoDecimals` is `round2` below.  Fallible methods (the calculator
throws validation errors, the service throws NestJS exceptions) return
`Except`.  The Prisma store is a `Store` record of lists; queries are
`List.find?` / `List.filter` over it, and `create` appends.
-/

namespace HMS

/-- JavaScript's `Math.round(value * 100) / 100`, the calculator's
`roundToTwoDecimals`. -/
def round2 (v : ℚ) : ℚ := (⌊v * 100 + 1/2⌋ : ℤ) / 100

/-! ## Tax calculator data model (`tax-calculator.ts`) -/

/-- Result of a single inclusive/exclusive tax computation (`TaxBreakdown`). -/
structure TaxBreakdown where
  baseAmount : ℚ
  taxAmount : ℚ
  total : ℚ
  isTaxInclusive : Bool
  taxRate : ℚ
deriving DecidableEq

/-- One line to be billed (`BillItemInput`). -/
structure BillItemInput where
  description : String
  quantity : ℚ
  unitPrice : ℚ
  taxRate : ℚ
  isTaxInclusive : Bool
deriving DecidableEq

/-- A processed line (`BillItemBreakdown extends BillItemInput`). -/
structure BillItemBreakdown extends BillItemInput where
  amount : ℚ
  baseAmount : ℚ
  taxAmount : ℚ
  lineTotal : ℚ
deriving DecidableEq

/-- Aggregate output of `generateTaxBreakdown` (`CompleteTaxBreakdown`). -/
structure CompleteTaxBreakdown where
  items : List BillItemBreakdown
  subtotal : ℚ
  totalTax : ℚ
  grandTotal : ℚ
deriving DecidableEq

/-- Intra-state/inter-state split of a tax amount (`GSTSplit`). -/
structure GSTSplit where
  cgst : ℚ
  sgst : ℚ
  igst : ℚ
deriving DecidableEq

/-- The private `validateInputs(amount, taxRate)`: throws on a negative amount
or a tax rate outside `[0, 1]`.  Note it receives the unit price and the tax
rate only — the quantity of a bill item is never passed to it. -/
def validateInputs (amount taxRate : ℚ) : Except String Unit :=
  if amount < 0 then .error "Amount cannot be negative"
  else if taxRate < 0 ∨ taxRate > 1 then .error "Tax rate must be between 0 and 1"
  else .ok ()

/-- The arithmetic of `calculateInclusiveTax` after validation has passed:
zero-rate fast path, else `base = mrp / (1 + rate)`, `tax = mrp - base`, both
rounded to two decimals, `total = mrp` unrounded. -/
def inclusiveCore (mrp taxRate : ℚ) : TaxBreakdown :=
  if taxRate = 0 then
    { baseAmount := mrp, taxAmount := 0, total := mrp, isTaxInclusive := true,
      taxRate := 0 }
  else
    let baseAmount := mrp / (1 + taxRate)
    let taxAmount := mrp - baseAmount
    { baseAmount := round2 baseAmount, taxAmount := round2 taxAmount, total := mrp,
      isTaxInclusive := true, taxRate := taxRate }

/-- `TaxCalculator.calculateInclusiveTax(mrp, taxRate)`. -/
def calculateInclusiveTax (mrp taxRate : ℚ) : Except String TaxBreakdown :=
  match validateInputs mrp taxRate with
  | .error e => .error e
  | .ok _ => .ok (inclusiveCore mrp taxRate)

/-- The arithmetic of `calculateExclusiveTax` after validation has passed:
`tax = base * rate`, `total = base + tax`, tax and total rounded to two
decimals, `baseAmount` passed through unrounded. -/
def exclusiveCore (basePrice taxRate : ℚ) : TaxBreakdown :=
  let taxAmount := basePrice * taxRate
  let total := basePrice + taxAmount
  { baseAmount := basePrice, taxAmount := round2 taxAmount, total := round2 total,
    isTaxInclusive := false, taxRate := taxRate }

/-- `TaxCalculator.calculateExclusiveTax(basePrice, taxRate)`. -/
def calculateExclusiveTax (basePrice taxRate : ℚ) : Except String TaxBreakdown :=
  match validateInputs basePrice taxRate with
  | .error e => .error e
  | .ok _ => .ok (exclusiveCore basePrice taxRate)

/-- The per-item dispatch in `generateTaxBreakdown`'s loop body. -/
def lineCalc (it : BillItemInput) : Except String TaxBreakdown :=
  if it.isTaxInclusive then calculateInclusiveTax it.unitPrice it.taxRate
  else calculateExclusiveTax it.unitPrice it.taxRate

/-- The loop of `generateTaxBreakdown`: processes items in order, pushing the
per-line breakdown (rounded fields) and accumulating the UNROUNDED per-line
`baseAmount`/`taxAmount`/`lineTotal` into the three running sums, which are
rounded once at the end. -/
def gtbLoop : List BillItemInput → List BillItemBreakdown → ℚ → ℚ → ℚ →
    Except String CompleteTaxBreakdown
  | [], acc, subtotal, totalTax, grandTotal =>
      .ok { items := acc.reverse, subtotal := round2 subtotal,
            totalTax := round2 totalTax, grandTotal := round2 grandTotal }
  | it :: rest, acc, subtotal, totalTax, grandTotal =>
      match lineCalc it with
      | .error e => .error e
      | .ok taxCalc =>
          let amount := it.quantity * it.unitPrice
          let baseAmount := taxCalc.baseAmount * it.quantity
          let taxAmount := taxCalc.taxAmount * it.quantity
          let lineTotal := if it.isTaxInclusive then amount else baseAmount + taxAmount
          gtbLoop rest
            ({ toBillItemInput := it, amount := amount,
               baseAmount := round2 baseAmount, taxAmount := round2 taxAmount,
               lineTotal := round2 lineTotal } :: acc)
            (subtotal + baseAmount) (totalTax + taxAmount) (grandTotal + lineTotal)

/-- `TaxCalculator.generateTaxBreakdown(items)`. -/
def generateTaxBreakdown (items : List BillItemInput) :
    Except String CompleteTaxBreakdown :=
  gtbLoop items [] 0 0 0

/-- `TaxCalculator.splitGST(taxAmount, isInterState)`: total, performs no
validation and never fails. -/
def splitGST (taxAmount : ℚ) (isInterState : Bool) : GSTSplit :=
  if isInterState then
    { cgst := 0, sgst := 0, igst := taxAmount }
  else
    let halfTax := taxAmount / 2
    { cgst := round2 halfTax, sgst := round2 halfTax, igst := 0 }

/-! ## Billing service data model (`billing.service.ts` and the Prisma store) -/

/-- A medicine row as included on a prescription item. -/
structure Medicine where
  id : String
  name : String
  strength : String
  mrp : ℚ
deriving DecidableEq

/-- A prescription item row (`dispensed` flags pharmacy fulfilment). -/
structure PrescriptionItem where
  id : String
  quantity : ℚ
  dispensed : Bool
  medicine : Medicine
deriving DecidableEq

/-- A prescription row; linked to a patient only — the schema has no visit
reference on prescriptions. -/
structure Prescription where
  id : String
  patientId : String
  items : List PrescriptionItem
deriving DecidableEq

/-- A lab test row. -/
structure LabTest where
  id : String
  name : String
  price : ℚ
deriving DecidableEq

/-- A lab order row; linked to a patient only — the schema has no visit
reference on lab orders. -/
structure LabOrder where
  id : String
  patientId : String
  status : String
  test : LabTest
deriving DecidableEq

/-- A visit row (only the fields the billing service reads). -/
structure Visit where
  id : String
  patientId : String
deriving DecidableEq

/-- An unbilled item as assembled by `aggregateUnbilledItems` (`UnbilledItem`). -/
structure UnbilledItem where
  itemType : String
  itemId : Option String
  description : String
  quantity : ℚ
  unitPrice : ℚ
  isTaxInclusive : Bool
  taxRate : ℚ
deriving DecidableEq

/-- A persisted bill line (`billing.create`'s nested `items.create`). -/
structure BillItem where
  itemType : String
  itemId : Option String
  description : String
  quantity : ℚ
  unitPrice : ℚ
  amount : ℚ
  isTaxInclusive : Bool
  taxRate : ℚ
  taxAmount : ℚ
  total : ℚ
deriving DecidableEq

/-- A persisted bill row (`Billing` table). -/
structure Bill where
  visitId : String
  billNumber : String
  subtotal : ℚ
  taxAmount : ℚ
  discount : ℚ
  total : ℚ
  balance : ℚ
  status : String
  generatedBy : String
  generatedAt : Nat
  items : List BillItem
deriving DecidableEq

/-- The relational store the service queries, plus the clock (`new Date()`'s
year) used by `createBillNumber` and the timestamp given to a created bill. -/
structure Store where
  visits : List Visit
  prescriptions : List Prescription
  labOrders : List LabOrder
  bills : List Bill
  currentYear : Nat
  now : Nat
deriving DecidableEq

/-- Errors thrown by the billing service.  `NotFoundException` is `notFound`;
the `BadRequestException` thrown when a bill already exists (whose message
carries the existing bill's number) is `alreadyExists`; the
`BadRequestException` for an empty aggregation is `noUnbilledItems`; a
validation error propagated from the tax calculator is `invalidInput`. -/
inductive BillingError where
  | notFound (message : String)
  | alreadyExists (visitId billNumber : String)
  | noUnbilledItems
  | invalidInput (message : String)
deriving DecidableEq

/-! ## Bill number allocation (`createBillNumber`) -/

/-- Splitter for `billNumber.split('/')` modelled on the character list
(JavaScript `String.prototype.split` with the one-character separator). -/
def splitSlash : List Char → List (List Char)
  | [] => [[]]
  | c :: rest =>
      if c = '/' then [] :: splitSlash rest
      else
        match splitSlash rest with
        | [] => [[c]]
        | grp :: grps => (c :: grp) :: grps

/-- The piece `billNumber.split('/')[2]` (empty when there is no such piece). -/
def billSeqString (billNumber : String) : String :=
  ((splitSlash billNumber.toList).map String.mk).getD 2 ""

/-- Digits-to-number accumulator for the parse below. -/
def digitsToNat (cs : List Char) : Nat :=
  cs.foldl (fun acc c => acc * 10 + (c.toNat - 48)) 0

/-- JavaScript's `parseInt(s, 10)` on the strings that occur here: reads the
leading run of decimal digits, `none` (NaN) when there is none. -/
def jsParseIntNat (str : String) : Option Nat :=
  let digits := str.toList.takeWhile Char.isDigit
  if digits.isEmpty then none else some (digitsToNat digits)

/-- JavaScript's `String.prototype.startsWith` / Prisma's `startsWith`. -/
def strStartsWith (s pat : String) : Bool :=
  pat.toList.isPrefixOf s.toList

/-- `nextNumber.toString().padStart(4, '0')`. -/
def padStart4 (str : String) : String :=
  if str.length ≥ 4 then str
  else String.mk (List.replicate (4 - str.length) '0') ++ str

/-- The year prefix `` `HMS/${currentYear}/` ``. -/
def yearPrefix (year : Nat) : String := "HMS/" ++ toString year ++ "/"

/-- Prisma's `findFirst({where: billNumber startsWith prefix, orderBy:
generatedAt desc})` on an already-filtered list: the row with the greatest
`generatedAt`, earliest row winning ties. -/
def latestByGeneratedAt : List Bill → Option Bill
  | [] => none
  | b :: rest =>
      match latestByGeneratedAt rest with
      | none => some b
      | some a => if a.generatedAt > b.generatedAt then some a else some b

/-- `BillingService.createBillNumber()`: takes the most recently generated
bill whose number starts with the current year's prefix, parses the third
`/`-separated piece of its number and adds one (starting at 1 when no bill
matches), then pads to four digits. -/
def createBillNumber (s : Store) : String :=
  let pre := yearPrefix s.currentYear
  match latestByGeneratedAt (s.bills.filter (fun b => strStartsWith b.billNumber pre)) with
  | none => pre ++ padStart4 (toString 1)
  | some latestBill =>
      match jsParseIntNat (billSeqString latestBill.billNumber) with
      | some lastNumber => pre ++ padStart4 (toString (lastNumber + 1))
      | none => pre ++ padStart4 "NaN"

/-! ## Aggregation (`aggregateUnbilledItems`) -/

/-- The consultation-fee line pushed by `aggregateUnbilledItems`: quantity 1,
a fixed ₹300 unit price, the 18% service GST rate, tax-exclusive. -/
def consultationFeeLine : UnbilledItem :=
  { itemType := "CONSULTATION", itemId := none,
    description := "Doctor Consultation Fee", quantity := 1, unitPrice := 300,
    isTaxInclusive := false, taxRate := 18/100 }

/-- The medicine line built from a dispensed prescription item. -/
def medicineLineOf (it : PrescriptionItem) : UnbilledItem :=
  { itemType := "MEDICINE", itemId := some it.id,
    description := it.medicine.name ++ " " ++ it.medicine.strength,
    quantity := it.quantity, unitPrice := it.medicine.mrp,
    isTaxInclusive := true, taxRate := 12/100 }

/-- The lab-test line built from a completed lab order. -/
def labLineOf (o : LabOrder) : UnbilledItem :=
  { itemType := "LAB_TEST", itemId := some o.id, description := o.test.name,
    quantity := 1, unitPrice := o.test.price,
    isTaxInclusive := false, taxRate := 18/100 }

/-- The query `patient.prescriptions` of the aggregation's `findUnique`
include: every prescription of the visit's patient (the item filter sits on
the nested items, not on the prescriptions themselves). -/
def patientPrescriptionsOf (s : Store) (patientId : String) : List Prescription :=
  s.prescriptions.filter (fun p => p.patientId == patientId)

/-- The query `patient.labOrders` with `where: {status: 'COMPLETED'}`. -/
def completedLabOrdersOf (s : Store) (patientId : String) : List LabOrder :=
  s.labOrders.filter (fun o => o.patientId == patientId && o.status == "COMPLETED")

/-- The dispensed prescription items of a patient, in prescription order. -/
def dispensedItemsOf (s : Store) (patientId : String) : List PrescriptionItem :=
  (patientPrescriptionsOf s patientId).flatMap (fun p => p.items.filter (fun it => it.dispensed))

/-- `BillingService.aggregateUnbilledItems(visitId)`: loads the visit (throwing
`NotFound` when absent), then its PATIENT's prescriptions (items filtered to
`dispensed`) and COMPLETED lab orders, and assembles: the consultation fee iff
the patient has any prescription or any completed lab order, then one medicine
line per dispensed item, then one lab line per completed order. -/
def aggregateUnbilledItems (s : Store) (visitId : String) :
    Except BillingError (List UnbilledItem) :=
  match s.visits.find? (fun v => v.id == visitId) with
  | none => .error (.notFound ("Visit with ID " ++ visitId ++ " not found"))
  | some visit =>
      let rx := (patientPrescriptionsOf s visit.patientId).map
        (fun p => { p with items := p.items.filter (fun it => it.dispensed) })
      let labs := completedLabOrdersOf s visit.patientId
      let consultationItems : List UnbilledItem :=
        if rx.length > 0 || labs.length > 0 then [consultationFeeLine] else []
      let medicineItems : List UnbilledItem :=
        rx.flatMap (fun p => (p.items.filter (fun it => it.dispensed)).map medicineLineOf)
      let labItems : List UnbilledItem :=
        labs.flatMap (fun o => if o.status == "COMPLETED" then [labLineOf o] else [])
      .ok (consultationItems ++ medicineItems ++ labItems)

/-! ## Bill generation (`generateBill`) -/

/-- The projection of an unbilled item into the calculator's input. -/
def toBillItemInput (u : UnbilledItem) : BillItemInput :=
  { description := u.description, quantity := u.quantity, unitPrice := u.unitPrice,
    taxRate := u.taxRate, isTaxInclusive := u.isTaxInclusive }

/-- One persisted bill line, from the unbilled item and its breakdown line. -/
def mkBillItem (u : UnbilledItem) (b : BillItemBreakdown) : BillItem :=
  { itemType := u.itemType, itemId := u.itemId, description := b.description,
    quantity := b.quantity, unitPrice := b.unitPrice, amount := b.amount,
    isTaxInclusive := b.isTaxInclusive, taxRate := b.taxRate,
    taxAmount := b.taxAmount, total := b.lineTotal }

/-- `BillingService.generateBill(dto)`: verifies the visit, rejects a visit
that already has a bill (the error carries the existing bill's number),
aggregates, rejects an empty aggregation, computes the breakdown, allocates
the bill number and persists the bill.  On any error no write happens: the
caller's store is untouched (the `Except.error` branch carries no store). -/
def generateBill (s : Store) (visitId generatedBy : String) :
    Except BillingError (Bill × Store) :=
  match s.visits.find? (fun v => v.id == visitId) with
  | none => .error (.notFound ("Visit with ID " ++ visitId ++ " not found"))
  | some _ =>
      match s.bills.find? (fun b => b.visitId == visitId) with
      | some existingBill => .error (.alreadyExists visitId existingBill.billNumber)
      | none =>
          match aggregateUnbilledItems s visitId with
          | .error e => .error e
          | .ok unbilledItems =>
              if unbilledItems.length = 0 then .error .noUnbilledItems
              else
                match generateTaxBreakdown (unbilledItems.map toBillItemInput) with
                | .error msg => .error (.invalidInput msg)
                | .ok breakdown =>
                    let billNumber := createBillNumber s
                    let bill : Bill :=
                      { visitId := visitId, billNumber := billNumber,
                        subtotal := breakdown.subtotal,
                        taxAmount := breakdown.totalTax, discount := 0,
                        total := breakdown.grandTotal,
                        balance := breakdown.grandTotal, status := "PENDING",
                        generatedBy := generatedBy, generatedAt := s.now,
                        items := (unbilledItems.zip breakdown.items).map
                          (fun p => mkBillItem p.1 p.2) }
                    .ok (bill, { s with bills := s.bills ++ [bill], now := s.now + 1 })

/-- The store after a `generateBill` call: the new store on success, the
caller's untouched store on failure. -/
def stateAfter (s : Store) : Except BillingError (Bill × Store) → Store
  | .ok (_, s2) => s2
  | .error _ => s

/-! ## Derived forms of the loop body, used to state the sum lemmas -/

/-- The validity bound `validateInputs` enforces on one item's price and rate. -/
def itemValid (it : BillItemInput) : Prop :=
  0 ≤ it.unitPrice ∧ 0 ≤ it.taxRate ∧ it.taxRate ≤ 1

/-- The per-unit breakdown the loop body obtains for an item (the value of
`lineCalc` when validation passes). -/
def lineCore (it : BillItemInput) : TaxBreakdown :=
  if it.isTaxInclusive then inclusiveCore it.unitPrice it.taxRate
  else exclusiveCore it.unitPrice it.taxRate

/-- The loop body's `amount`: `quantity * unitPrice`, unrounded. -/
def lineAmount (it : BillItemInput) : ℚ := it.quantity * it.unitPrice

/-- The loop body's unrounded per-line `baseAmount`. -/
def lineBaseU (it : BillItemInput) : ℚ := (lineCore it).baseAmount * it.quantity

/-- The loop body's unrounded per-line `taxAmount`. -/
def lineTaxU (it : BillItemInput) : ℚ := (lineCore it).taxAmount * it.quantity

/-- The loop body's unrounded per-line `lineTotal`. -/
def lineTotalU (it : BillItemInput) : ℚ :=
  if it.isTaxInclusive then lineAmount it else lineBaseU it + lineTaxU it

/-- The processed line the loop pushes for an item (rounded fields). -/
def processLine (it : BillItemInput) : BillItemBreakdown :=
  { toBillItemInput := it, amount := lineAmount it,
    baseAmount := round2 (lineBaseU it), taxAmount := round2 (lineTaxU it),
    lineTotal := round2 (lineTotalU it) }

/-- A rational that is a whole number of cents (two decimal places). -/
def TwoDecimal (x : ℚ) : Prop := ∃ k : ℤ, x = (k : ℚ) / 100

/-- A rational that is a natural number (the shape of a quantity). -/
def IsNatValued (q : ℚ) : Prop := ∃ n : ℕ, q = (n : ℚ)

/-! ## The spec's wording of bill numbering, for the refinement comparison -/

/-- The bills whose numbers carry the current year's prefix. -/
def matchingBills (s : Store) : List Bill :=
  s.bills.filter (fun b => strStartsWith b.billNumber (yearPrefix s.currentYear))

/-- The parsed sequence number of a bill's number. -/
def seqOf (b : Bill) : Option Nat := jsParseIntNat (billSeqString b.billNumber)

/-- The parsed sequence number, defaulted to 0. -/
def seqN (b : Bill) : Nat := (seqOf b).getD 0

/-- Modelled from the spec: "computed by finding the highest existing sequence
number with a matching year-prefix and incrementing by one (starting at 1 if
none exist for the year)". -/
def specNextBillNumber (s : Store) : String :=
  yearPrefix s.currentYear ++
    padStart4 (toString (((matchingBills s).map seqN).foldr max 0 + 1))

/-! ## Concrete inputs used by the claim theorems -/

/-- A bill row with the given number and timestamp (other fields immaterial). -/
def mkBillRow (num : String) (t : Nat) : Bill :=
  { visitId := "vx", billNumber := num, subtotal := 0, taxAmount := 0, discount := 0,
    total := 0, balance := 0, status := "PENDING", generatedBy := "u0",
    generatedAt := t, items := [] }

/-- Store where the most recently generated 2024 bill (0005) is not the one
with the highest sequence number (0007). -/
def c1store : Store :=
  { visits := [], prescriptions := [], labOrders := [],
    bills := [mkBillRow "HMS/2024/0007" 1, mkBillRow "HMS/2024/0005" 2],
    currentYear := 2024, now := 3 }

/-- Store holding a single 2024 bill numbered 0005. -/
def c1wstore : Store :=
  { visits := [], prescriptions := [], labOrders := [],
    bills := [mkBillRow "HMS/2024/0005" 1],
    currentYear := 2024, now := 2 }

/-- A tax-exclusive line priced at half a cent. -/
def c2item : BillItemInput :=
  { description := "Half cent service", quantity := 1, unitPrice := 1/200,
    taxRate := 0, isTaxInclusive := false }

/-- Two half-cent exclusive lines. -/
def c2items : List BillItemInput := [c2item, c2item]

/-- A tax-inclusive line priced at half a cent. -/
def c3item : BillItemInput :=
  { description := "Half cent medicine", quantity := 1, unitPrice := 1/200,
    taxRate := 0, isTaxInclusive := true }

/-- Two half-cent inclusive lines. -/
def c3items : List BillItemInput := [c3item, c3item]

/-- The spec's mixed-bill scenario: 15 inclusive medicine units at ₹100 (12%),
one lab test at ₹500 and one consultation at ₹300 (both exclusive, 18%). -/
def wItems : List BillItemInput :=
  [ { description := "Paracetamol 500mg", quantity := 15, unitPrice := 100,
      taxRate := 12/100, isTaxInclusive := true },
    { description := "CBC Test", quantity := 1, unitPrice := 500,
      taxRate := 18/100, isTaxInclusive := false },
    { description := "Consultation Fee", quantity := 1, unitPrice := 300,
      taxRate := 18/100, isTaxInclusive := false } ]

/-- A line with quantity 0 but valid price and rate. -/
def c6item : BillItemInput :=
  { description := "Zero quantity line", quantity := 0, unitPrice := 10,
    taxRate := 12/100, isTaxInclusive := false }

/-- Store whose patient has one PENDING (not completed) lab order and no
prescriptions at all. -/
def c4store : Store :=
  { visits := [{ id := "v1", patientId := "p1" }],
    prescriptions := [],
    labOrders := [{ id := "l1", patientId := "p1", status := "PENDING",
                    test := { id := "t1", name := "CBC Test", price := 500 } }],
    bills := [], currentYear := 2024, now := 0 }

/-- A dispensed prescription item of patient p1. -/
def wRxItem : PrescriptionItem :=
  { id := "ri1", quantity := 2, dispensed := true,
    medicine := { id := "m1", name := "Paracetamol", strength := "500mg", mrp := 100 } }

/-- Store with two visits of the same patient p1 and one dispensed
prescription item recorded for p1. -/
def c45store : Store :=
  { visits := [{ id := "v1", patientId := "p1" }, { id := "v2", patientId := "p1" }],
    prescriptions := [{ id := "rx1", patientId := "p1", items := [wRxItem] }],
    labOrders := [], bills := [], currentYear := 2024, now := 0 }

/-- The aggregation both visits of `c45store` produce. -/
def c45out : List UnbilledItem := [consultationFeeLine, medicineLineOf wRxItem]

/-- The bill already persisted for visit v1 in `c7store`. -/
def c7bill : Bill :=
  { visitId := "v1", billNumber := "HMS/2024/0001", subtotal := 38929/100,
    taxAmount := 6471/100, discount := 0, total := 454, balance := 454,
    status := "PENDING", generatedBy := "u1", generatedAt := 0, items := [] }

/-- Store whose visit v1 already carries bill HMS/2024/0001. -/
def c7store : Store :=
  { visits := [{ id := "v1", patientId := "p1" }],
    prescriptions := [{ id := "rx1", patientId := "p1", items := [wRxItem] }],
    labOrders := [],
    bills := [c7bill],
    currentYear := 2024, now := 1 }

/-- The breakdown the calculator produces for `wItems` (₹2139.35 subtotal,
₹304.65 tax, ₹2444 grand total — the spec's scenario C figures). -/
def wBd : CompleteTaxBreakdown :=
  { items :=
      [ { description := "Paracetamol 500mg", quantity := 15, unitPrice := 100,
          taxRate := 12/100, isTaxInclusive := true, amount := 1500,
          baseAmount := 26787/20, taxAmount := 3213/20, lineTotal := 1500 },
        { description := "CBC Test", quantity := 1, unitPrice := 500,
          taxRate := 18/100, isTaxInclusive := false, amount := 500,
          baseAmount := 500, taxAmount := 90, lineTotal := 590 },
        { description := "Consultation Fee", quantity := 1, unitPrice := 300,
          taxRate := 18/100, isTaxInclusive := false, amount := 300,
          baseAmount := 300, taxAmount := 54, lineTotal := 354 } ],
    subtotal := 42787/20, totalTax := 6093/20, grandTotal := 2444 }

/-- The processed line for `c2item`. -/
def c2line : BillItemBreakdown :=
  { toBillItemInput := c2item, amount := 1/200, baseAmount := 1/100,
    taxAmount := 0, lineTotal := 1/100 }

/-- The breakdown for `c2items`: subtotal 0.01, yet both lines show 0.01. -/
def c2bd : CompleteTaxBreakdown :=
  { items := [c2line, c2line], subtotal := 1/100, totalTax := 0, grandTotal := 1/100 }

/-- The processed line for `c3item`. -/
def c3line : BillItemBreakdown :=
  { toBillItemInput := c3item, amount := 1/200, baseAmount := 1/100,
    taxAmount := 0, lineTotal := 1/100 }

/-- The breakdown for `c3items`: grand total 0.01, yet both lines total 0.01. -/
def c3bd : CompleteTaxBreakdown :=
  { items := [c3line, c3line], subtotal := 1/100, totalTax := 0, grandTotal := 1/100 }

/-- The processed line for `c6item` (all amounts zero at quantity 0). -/
def c6line : BillItemBreakdown :=
  { toBillItemInput := c6item, amount := 0, baseAmount := 0, taxAmount := 0,
    lineTotal := 0 }

/-- The breakdown the calculator returns for `[c6item]`. -/
def c6bd : CompleteTaxBreakdown :=
  { items := [c6line], subtotal := 0, totalTax := 0, grandTotal := 0 }

/-- A line with a negative unit price (and valid rate and quantity). -/
def c6bad : BillItemInput :=
  { description := "Negative price line", quantity := 1, unitPrice := -5,
    taxRate := 18/100, isTaxInclusive := false }

/-! ## Rounding lemmas -/

theorem twoDecimal_round2 (x : ℚ) : TwoDecimal (round2 x) :=
  ⟨⌊x * 100 + 1/2⌋, rfl⟩

theorem twoDecimal_zero : TwoDecimal 0 :=
  ⟨0, by norm_num⟩

theorem twoDecimal_add {x y : ℚ} (hx : TwoDecimal x) (hy : TwoDecimal y) :
    TwoDecimal (x + y) := by
  obtain ⟨k, rfl⟩ := hx
  obtain ⟨m, rfl⟩ := hy
  exact ⟨k + m, by push_cast; ring⟩

theorem twoDecimal_natMul {x : ℚ} (hx : TwoDecimal x) (n : ℕ) :
    TwoDecimal (x * (n : ℚ)) := by
  obtain ⟨k, rfl⟩ := hx
  exact ⟨k * n, by push_cast; ring⟩

theorem twoDecimal_sum {l : List ℚ} (h : ∀ x ∈ l, TwoDecimal x) :
    TwoDecimal l.sum := by
  induction l with
  | nil => simpa using twoDecimal_zero
  | cons a l ih =>
      rw [List.sum_cons]
      exact twoDecimal_add (h a (by simp)) (ih fun x hx => h x (by simp [hx]))

theorem round2_eq_self {x : ℚ} (hx : TwoDecimal x) : round2 x = x := by
  obtain ⟨k, rfl⟩ := hx
  unfold round2
  rw [show (k : ℚ) / 100 * 100 + 1/2 = (k : ℚ) + 1/2 by field_simp, Int.floor_int_add]
  norm_num

theorem abs_round2_sub_le (x : ℚ) : |round2 x - x| ≤ 1/200 := by
  have h1 : (⌊x * 100 + 1/2⌋ : ℚ) ≤ x * 100 + 1/2 := Int.floor_le _
  have h2 : x * 100 + 1/2 - 1 < (⌊x * 100 + 1/2⌋ : ℚ) := Int.sub_one_lt_floor _
  rw [abs_le]
  unfold round2
  constructor <;> linarith

/-! ## Calculator lemmas -/

theorem validateInputs_eq_ok {amount taxRate : ℚ}
    (h0 : 0 ≤ amount) (h1 : 0 ≤ taxRate) (h2 : taxRate ≤ 1) :
    validateInputs amount taxRate = .ok () := by
  unfold validateInputs
  split_ifs with ha hb
  · linarith
  · rcases hb with h | h <;> linarith
  · rfl

theorem validateInputs_ok_inv {amount taxRate : ℚ}
    (h : validateInputs amount taxRate = .ok ()) :
    0 ≤ amount ∧ 0 ≤ taxRate ∧ taxRate ≤ 1 := by
  unfold validateInputs at h
  split_ifs at h with ha hb
  · push_neg at ha hb
    exact ⟨ha, hb.1, hb.2⟩

theorem lineCalc_eq_ok {it : BillItemInput} (h : itemValid it) :
    lineCalc it = .ok (lineCore it) := by
  obtain ⟨h0, h1, h2⟩ := h
  unfold lineCalc lineCore calculateInclusiveTax calculateExclusiveTax
  rcases hit : it.isTaxInclusive <;>
    simp [hit, validateInputs_eq_ok h0 h1 h2]

theorem lineCalc_ok_inv {it : BillItemInput} {tc : TaxBreakdown}
    (h : lineCalc it = .ok tc) : itemValid it ∧ tc = lineCore it := by
  unfold lineCalc calculateInclusiveTax calculateExclusiveTax at h
  rcases hit : it.isTaxInclusive <;> rw [hit] at h <;>
    simp only [Bool.false_eq_true, if_false, if_true] at h <;>
    rcases hval : validateInputs it.unitPrice it.taxRate with e | u <;>
      rw [hval] at h <;> simp at h
  · cases u
    exact ⟨validateInputs_ok_inv hval, by simp [lineCore, hit, h.symm]⟩
  · cases u
    exact ⟨validateInputs_ok_inv hval, by simp [lineCore, hit, h.symm]⟩

theorem lineCalc_error_of_invalid {it : BillItemInput} (h : ¬ itemValid it) :
    ∃ msg, lineCalc it = .error msg := by
  rcases hval : validateInputs it.unitPrice it.taxRate with e | u
  · unfold lineCalc calculateInclusiveTax calculateExclusiveTax
    rcases hit : it.isTaxInclusive <;> simp [hval]
  · cases u
    exact absurd (validateInputs_ok_inv hval) h

/-! ## Loop lemmas for `generateTaxBreakdown` -/

theorem gtbLoop_eq_ok (items : List BillItemInput) :
    ∀ (acc : List BillItemBreakdown) (sub tax grand : ℚ),
    (∀ it ∈ items, itemValid it) →
    gtbLoop items acc sub tax grand =
      .ok { items := acc.reverse ++ items.map processLine,
            subtotal := round2 (sub + (items.map lineBaseU).sum),
            totalTax := round2 (tax + (items.map lineTaxU).sum),
            grandTotal := round2 (grand + (items.map lineTotalU).sum) } := by
  induction items with
  | nil =>
      intro acc sub tax grand _
      simp [gtbLoop]
  | cons it rest ih =>
      intro acc sub tax grand hval
      have hit : itemValid it := hval it (by simp)
      rw [gtbLoop, lineCalc_eq_ok hit]
      show gtbLoop rest (processLine it :: acc) (sub + lineBaseU it)
        (tax + lineTaxU it) (grand + lineTotalU it) = _
      rw [ih (processLine it :: acc) (sub + lineBaseU it) (tax + lineTaxU it)
        (grand + lineTotalU it) (fun x hx => hval x (by simp [hx]))]
      simp only [List.map_cons, List.sum_cons, List.reverse_cons, List.append_assoc,
        List.cons_append, List.nil_append]
      congr 1 <;> ring_nf

theorem generateTaxBreakdown_eq_ok {items : List BillItemInput}
    (hval : ∀ it ∈ items, itemValid it) :
    generateTaxBreakdown items =
      .ok { items := items.map processLine,
            subtotal := round2 ((items.map lineBaseU).sum),
            totalTax := round2 ((items.map lineTaxU).sum),
            grandTotal := round2 ((items.map lineTotalU).sum) } := by
  rw [generateTaxBreakdown, gtbLoop_eq_ok items [] 0 0 0 hval]
  simp

theorem gtbLoop_ok_valid :
    ∀ (items : List BillItemInput) (acc : List BillItemBreakdown)
      (sub tax grand : ℚ) (bd : CompleteTaxBreakdown),
    gtbLoop items acc sub tax grand = .ok bd → ∀ it ∈ items, itemValid it := by
  intro items
  induction items with
  | nil => intro _ _ _ _ _ _ it hmem; cases hmem
  | cons a rest ih =>
      intro acc sub tax grand bd h it hmem
      rw [gtbLoop] at h
      rcases hcalc : lineCalc a with e | tc <;> rw [hcalc] at h
      · simp at h
      · rcases List.mem_cons.mp hmem with heq | hmem2
        · exact heq ▸ (lineCalc_ok_inv hcalc).1
        · exact ih _ _ _ _ _ h it hmem2

theorem generateTaxBreakdown_ok_valid {items : List BillItemInput}
    {bd : CompleteTaxBreakdown} (h : generateTaxBreakdown items = .ok bd) :
    ∀ it ∈ items, itemValid it :=
  gtbLoop_ok_valid items [] 0 0 0 bd h

theorem gtbLoop_error_of_invalid :
    ∀ (items : List BillItemInput) (acc : List BillItemBreakdown)
      (sub tax grand : ℚ),
    (∃ it ∈ items, ¬ itemValid it) →
    ∃ msg, gtbLoop items acc sub tax grand = .error msg := by
  intro items
  induction items with
  | nil =>
      intro _ _ _ _ h
      obtain ⟨it, hmem, _⟩ := h
      cases hmem
  | cons a rest ih =>
      intro acc sub tax grand h
      by_cases ha : itemValid a
      · obtain ⟨it, hmem, hbad⟩ := h
        have hrest : ∃ it ∈ rest, ¬ itemValid it := by
          rcases List.mem_cons.mp hmem with heq | hmem2
          · exact absurd (heq ▸ ha) hbad
          · exact ⟨it, hmem2, hbad⟩
        obtain ⟨msg, hmsg⟩ := ih (processLine a :: acc) (sub + lineBaseU a)
          (tax + lineTaxU a) (grand + lineTotalU a) hrest
        refine ⟨msg, ?_⟩
        rw [gtbLoop, lineCalc_eq_ok ha]
        show gtbLoop rest (processLine a :: acc) (sub + lineBaseU a)
          (tax + lineTaxU a) (grand + lineTotalU a) = _
        exact hmsg
      · obtain ⟨msg, hmsg⟩ := lineCalc_error_of_invalid ha
        exact ⟨msg, by rw [gtbLoop, hmsg]⟩

/-! ## Cent-exactness of the per-line values -/

theorem twoDecimal_lineCore_tax (it : BillItemInput) :
    TwoDecimal (lineCore it).taxAmount := by
  unfold lineCore inclusiveCore exclusiveCore
  rcases it.isTaxInclusive <;> simp only [Bool.false_eq_true, if_false, if_true]
  · exact twoDecimal_round2 _
  · split_ifs
    · exact twoDecimal_zero
    · exact twoDecimal_round2 _

theorem twoDecimal_lineCore_base {it : BillItemInput}
    (hp : TwoDecimal it.unitPrice) : TwoDecimal (lineCore it).baseAmount := by
  unfold lineCore inclusiveCore exclusiveCore
  rcases it.isTaxInclusive <;> simp only [Bool.false_eq_true, if_false, if_true]
  · exact hp
  · split_ifs
    · exact hp
    · exact twoDecimal_round2 _

theorem twoDecimal_lineTaxU {it : BillItemInput} (hq : IsNatValued it.quantity) :
    TwoDecimal (lineTaxU it) := by
  obtain ⟨n, hn⟩ := hq
  unfold lineTaxU
  rw [hn]
  exact twoDecimal_natMul (twoDecimal_lineCore_tax it) n

theorem twoDecimal_lineBaseU {it : BillItemInput} (hq : IsNatValued it.quantity)
    (hp : TwoDecimal it.unitPrice) : TwoDecimal (lineBaseU it) := by
  obtain ⟨n, hn⟩ := hq
  unfold lineBaseU
  rw [hn]
  exact twoDecimal_natMul (twoDecimal_lineCore_base hp) n

theorem twoDecimal_lineTotalU {it : BillItemInput} (hq : IsNatValued it.quantity)
    (hp : TwoDecimal it.unitPrice) : TwoDecimal (lineTotalU it) := by
  unfold lineTotalU
  split_ifs
  · obtain ⟨n, hn⟩ := hq
    unfold lineAmount
    rw [hn, mul_comm]
    exact twoDecimal_natMul hp n
  · exact twoDecimal_add (twoDecimal_lineBaseU hq hp) (twoDecimal_lineTaxU hq)

/-! ## Claim C2 -/

/-- C2 (corrected).  For items with natural-number quantities,
`generateTaxBreakdown`'s `totalTax` does equal the sum of the rounded
per-line `taxAmount` fields, but `subtotal` is the rounding of the sum of
the UNROUNDED per-line base amounts; it equals the sum of the rounded
per-line `baseAmount` fields only under the extra hypothesis that every
unit price is a whole number of cents. -/
theorem generateTaxBreakdown_sums (items : List BillItemInput)
    (bd : CompleteTaxBreakdown)
    (hq : ∀ it ∈ items, IsNatValued it.quantity)
    (hok : generateTaxBreakdown items = .ok bd) :
    bd.totalTax = (bd.items.map BillItemBreakdown.taxAmount).sum ∧
    bd.subtotal = round2 ((items.map lineBaseU).sum) ∧
    ((∀ it ∈ items, TwoDecimal it.unitPrice) →
      bd.subtotal = (bd.items.map BillItemBreakdown.baseAmount).sum) := by
  have hval := generateTaxBreakdown_ok_valid hok
  rw [generateTaxBreakdown_eq_ok hval] at hok
  obtain rfl : bd = _ := (Except.ok.injEq _ _).mp hok.symm
  refine ⟨?_, rfl, ?_⟩
  · show round2 ((items.map lineTaxU).sum) = _
    have htd : ∀ x ∈ items.map lineTaxU, TwoDecimal x := by
      intro x hx
      obtain ⟨it, hmem, rfl⟩ := List.mem_map.mp hx
      exact twoDecimal_lineTaxU (hq it hmem)
    rw [round2_eq_self (twoDecimal_sum htd)]
    rw [List.map_map]
    congr 1
    refine List.map_congr_left ?_
    intro it hmem
    show lineTaxU it = (processLine it).taxAmount
    exact (round2_eq_self (twoDecimal_lineTaxU (hq it hmem))).symm
  · intro hp
    show round2 ((items.map lineBaseU).sum) = _
    have htd : ∀ x ∈ items.map lineBaseU, TwoDecimal x := by
      intro x hx
      obtain ⟨it, hmem, rfl⟩ := List.mem_map.mp hx
      exact twoDecimal_lineBaseU (hq it hmem) (hp it hmem)
    rw [round2_eq_self (twoDecimal_sum htd)]
    rw [List.map_map]
    congr 1
    refine List.map_congr_left ?_
    intro it hmem
    show lineBaseU it = (processLine it).baseAmount
    exact (round2_eq_self (twoDecimal_lineBaseU (hq it hmem) (hp it hmem))).symm

/-- C2 witness: the spec's mixed-bill scenario, evaluated concretely. -/
theorem generateTaxBreakdown_sums_witness :
    wBd.totalTax = (wBd.items.map BillItemBreakdown.taxAmount).sum ∧
    wBd.subtotal = round2 ((wItems.map lineBaseU).sum) ∧
    wBd.subtotal = (wBd.items.map BillItemBreakdown.baseAmount).sum := by
  have hq : ∀ it ∈ wItems, IsNatValued it.quantity := by
    intro it hmem
    fin_cases hmem
    · exact ⟨15, by norm_num [wItems]⟩
    · exact ⟨1, by norm_num [wItems]⟩
    · exact ⟨1, by norm_num [wItems]⟩
  have hok : generateTaxBreakdown wItems = .ok wBd := by
    norm_num [wItems, wBd, generateTaxBreakdown, gtbLoop, lineCalc,
      calculateInclusiveTax, calculateExclusiveTax, validateInputs,
      inclusiveCore, exclusiveCore, round2]
  have hp : ∀ it ∈ wItems, TwoDecimal it.unitPrice := by
    intro it hmem
    fin_cases hmem
    · exact ⟨10000, by norm_num [wItems]⟩
    · exact ⟨50000, by norm_num [wItems]⟩
    · exact ⟨30000, by norm_num [wItems]⟩
  have h := generateTaxBreakdown_sums wItems wBd hq hok
  exact ⟨h.1, h.2.1, h.2.2 hp⟩

/-- C2 counterexample: two tax-exclusive half-cent lines.  The rounded
per-line base amounts are 0.01 each and sum to 0.02, but the code's
`subtotal` (which sums the unrounded bases) is 0.01. -/
theorem generateTaxBreakdown_subtotal_cex :
    generateTaxBreakdown c2items = .ok c2bd ∧
    c2bd.subtotal = 1/100 ∧
    (c2bd.items.map BillItemBreakdown.baseAmount).sum = 2/100 ∧
    c2bd.subtotal ≠ (c2bd.items.map BillItemBreakdown.baseAmount).sum := by
  refine ⟨?_, by norm_num [c2bd], ?_, ?_⟩
  · norm_num [c2items, c2item, c2bd, c2line, generateTaxBreakdown, gtbLoop,
      lineCalc, calculateInclusiveTax, calculateExclusiveTax, validateInputs,
      inclusiveCore, exclusiveCore, round2]
  · norm_num [c2bd, c2line]
  · norm_num [c2bd, c2line]

/-! ## Claim C3 -/

/-- C3 (corrected).  `grandTotal` equals the sum of the per-line `lineTotal`
fields for items whose quantities are natural numbers and whose unit prices
are whole numbers of cents; for sub-cent unit prices the accumulated
unrounded line totals can drift from the rounded per-line fields. -/
theorem generateTaxBreakdown_grandTotal (items : List BillItemInput)
    (bd : CompleteTaxBreakdown)
    (hq : ∀ it ∈ items, IsNatValued it.quantity)
    (hp : ∀ it ∈ items, TwoDecimal it.unitPrice)
    (hok : generateTaxBreakdown items = .ok bd) :
    bd.grandTotal = (bd.items.map BillItemBreakdown.lineTotal).sum := by
  have hval := generateTaxBreakdown_ok_valid hok
  rw [generateTaxBreakdown_eq_ok hval] at hok
  obtain rfl : bd = _ := (Except.ok.injEq _ _).mp hok.symm
  show round2 ((items.map lineTotalU).sum) = _
  have htd : ∀ x ∈ items.map lineTotalU, TwoDecimal x := by
    intro x hx
    obtain ⟨it, hmem, rfl⟩ := List.mem_map.mp hx
    exact twoDecimal_lineTotalU (hq it hmem) (hp it hmem)
  rw [round2_eq_self (twoDecimal_sum htd)]
  rw [List.map_map]
  congr 1
  refine List.map_congr_left ?_
  intro it hmem
  show lineTotalU it = (processLine it).lineTotal
  exact (round2_eq_self (twoDecimal_lineTotalU (hq it hmem) (hp it hmem))).symm

/-- C3 witness: the mixed-bill scenario has `grandTotal` 2444 = 1500+590+354. -/
theorem generateTaxBreakdown_grandTotal_witness :
    wBd.grandTotal = (wBd.items.map BillItemBreakdown.lineTotal).sum := by
  have hq : ∀ it ∈ wItems, IsNatValued it.quantity := by
    intro it hmem
    fin_cases hmem
    · exact ⟨15, by norm_num [wItems]⟩
    · exact ⟨1, by norm_num [wItems]⟩
    · exact ⟨1, by norm_num [wItems]⟩
  have hp : ∀ it ∈ wItems, TwoDecimal it.unitPrice := by
    intro it hmem
    fin_cases hmem
    · exact ⟨10000, by norm_num [wItems]⟩
    · exact ⟨50000, by norm_num [wItems]⟩
    · exact ⟨30000, by norm_num [wItems]⟩
  have hok : generateTaxBreakdown wItems = .ok wBd := by
    norm_num [wItems, wBd, generateTaxBreakdown, gtbLoop, lineCalc,
      calculateInclusiveTax, calculateExclusiveTax, validateInputs,
      inclusiveCore, exclusiveCore, round2]
  exact generateTaxBreakdown_grandTotal wItems wBd hq hp hok

/-- C3 counterexample: two tax-inclusive half-cent lines.  The rounded
per-line totals are 0.01 each and sum to 0.02, but `grandTotal` (which sums
the unrounded line totals) is 0.01. -/
theorem generateTaxBreakdown_grandTotal_cex :
    generateTaxBreakdown c3items = .ok c3bd ∧
    c3bd.grandTotal = 1/100 ∧
    (c3bd.items.map BillItemBreakdown.lineTotal).sum = 2/100 ∧
    c3bd.grandTotal ≠ (c3bd.items.map BillItemBreakdown.lineTotal).sum := by
  refine ⟨?_, by norm_num [c3bd], ?_, ?_⟩
  · norm_num [c3items, c3item, c3bd, c3line, generateTaxBreakdown, gtbLoop,
      lineCalc, calculateInclusiveTax, calculateExclusiveTax, validateInputs,
      inclusiveCore, exclusiveCore, round2]
  · norm_num [c3bd, c3line]
  · norm_num [c3bd, c3line]

/-! ## Claim C6 -/

/-- C6 (corrected).  A list containing an item with a negative unit price or
a tax rate outside `[0, 1]` makes `generateTaxBreakdown` fail with a
validation error and return no breakdown.  (Quantity, by contrast, is never
validated — see the counterexample.) -/
theorem generateTaxBreakdown_rejects_bad_price_rate (items : List BillItemInput)
    (it : BillItemInput) (hmem : it ∈ items)
    (hbad : it.unitPrice < 0 ∨ it.taxRate < 0 ∨ 1 < it.taxRate) :
    ∃ msg, generateTaxBreakdown items = .error msg := by
  have hnv : ¬ itemValid it := by
    rintro ⟨h0, h1, h2⟩
    rcases hbad with h | h | h <;> linarith
  exact gtbLoop_error_of_invalid items [] 0 0 0 ⟨it, hmem, hnv⟩

/-- C6 witness: a single line priced at −5 is rejected. -/
theorem generateTaxBreakdown_rejects_bad_price_rate_witness :
    ∃ msg, generateTaxBreakdown [c6bad] = .error msg :=
  generateTaxBreakdown_rejects_bad_price_rate [c6bad] c6bad (by simp)
    (Or.inl (by norm_num [c6bad]))

/-- C6 counterexample: an item with quantity 0 is NOT rejected — the
calculator happily returns an all-zero line for it. -/
theorem generateTaxBreakdown_quantity_not_validated_cex :
    c6item.quantity = 0 ∧ generateTaxBreakdown [c6item] = .ok c6bd := by
  constructor
  · norm_num [c6item]
  · norm_num [c6item, c6bd, c6line, generateTaxBreakdown, gtbLoop, lineCalc,
      calculateInclusiveTax, calculateExclusiveTax, validateInputs,
      inclusiveCore, exclusiveCore, round2]

/-! ## Claim C8 -/

/-- C8 (confirmed).  For `mrp ≥ 0` and a tax rate in `[0, 1)`, the rounded
base amount of `calculateInclusiveTax`, regrossed by `1 + taxRate`, lands
within one cent of the original MRP. -/
theorem calculateInclusiveTax_round_trip (mrp taxRate : ℚ)
    (hm : 0 ≤ mrp) (h0 : 0 ≤ taxRate) (h1 : taxRate < 1) :
    ∃ bd, calculateInclusiveTax mrp taxRate = .ok bd ∧
      |bd.baseAmount * (1 + taxRate) - mrp| ≤ 1/100 := by
  refine ⟨inclusiveCore mrp taxRate, ?_, ?_⟩
  · unfold calculateInclusiveTax
    rw [validateInputs_eq_ok hm h0 (le_of_lt h1)]
  · unfold inclusiveCore
    split_ifs with hz
    · subst hz
      dsimp only
      norm_num
    · dsimp only
      have hpos : (0:ℚ) < 1 + taxRate := by linarith
      have hx : mrp / (1 + taxRate) * (1 + taxRate) = mrp :=
        div_mul_cancel₀ _ (ne_of_gt hpos)
      have hd := abs_round2_sub_le (mrp / (1 + taxRate))
      rw [abs_le] at hd ⊢
      have hdiff : round2 (mrp / (1 + taxRate)) * (1 + taxRate) - mrp =
          (round2 (mrp / (1 + taxRate)) - mrp / (1 + taxRate)) * (1 + taxRate) := by
        rw [sub_mul, hx]
      constructor <;> rw [hdiff] <;> nlinarith [hd.1, hd.2]

/-- C8 witness: MRP 100 at 12% GST round-trips to 100.0048. -/
theorem calculateInclusiveTax_round_trip_witness :
    ∃ bd, calculateInclusiveTax 100 (12/100) = .ok bd ∧
      |bd.baseAmount * (1 + 12/100) - 100| ≤ 1/100 :=
  calculateInclusiveTax_round_trip 100 (12/100) (by norm_num) (by norm_num)
    (by norm_num)

/-! ## Claim C9 -/

/-- C9 (confirmed).  Intra-state splitting puts `round2 (t/2)` into each of
cgst and sgst (independently rounded), zero into igst, and conserves the
tax amount to within one cent. -/
theorem splitGST_intrastate_conservation (t : ℚ) (ht : 0 ≤ t) :
    splitGST t false = { cgst := round2 (t/2), sgst := round2 (t/2), igst := 0 } ∧
    |(splitGST t false).cgst + (splitGST t false).sgst - t| ≤ 1/100 := by
  refine ⟨rfl, ?_⟩
  show |round2 (t/2) + round2 (t/2) - t| ≤ 1/100
  have hd := abs_round2_sub_le (t/2)
  rw [abs_le] at hd ⊢
  constructor <;> linarith [hd.1, hd.2]

/-- C9 witness: at t = 0.01 the two halves each round to 0.01 and their sum
overshoots t by exactly one cent. -/
theorem splitGST_intrastate_conservation_witness :
    splitGST (1/100) false =
      { cgst := round2 (1/100/2), sgst := round2 (1/100/2), igst := 0 } ∧
    |(splitGST (1/100) false).cgst + (splitGST (1/100) false).sgst - 1/100| ≤ 1/100 :=
  splitGST_intrastate_conservation (1/100) (by norm_num)

/-! ## Claim C10 -/

/-- C10 (confirmed).  `splitGST` is a total function performing no input
validation: for every tax amount, negative ones included, it returns a
split, and inter-state calls pass the amount through to igst unrounded —
while `calculateInclusiveTax`/`calculateExclusiveTax` reject a negative
amount. -/
theorem splitGST_total_no_validation (t : ℚ) :
    splitGST t true = { cgst := 0, sgst := 0, igst := t } ∧
    splitGST t false = { cgst := round2 (t/2), sgst := round2 (t/2), igst := 0 } ∧
    (t < 0 →
      (splitGST t true).igst = t ∧
      calculateInclusiveTax t (18/100) = .error "Amount cannot be negative" ∧
      calculateExclusiveTax t (18/100) = .error "Amount cannot be negative") := by
  refine ⟨rfl, rfl, fun hneg => ⟨rfl, ?_, ?_⟩⟩
  · unfold calculateInclusiveTax validateInputs
    rw [if_pos hneg]
  · unfold calculateExclusiveTax validateInputs
    rw [if_pos hneg]

/-- C10 witness: a negative tax amount −5 flows through `splitGST` untouched
while the validating calculators reject it. -/
theorem splitGST_total_no_validation_witness :
    splitGST (-5) true = { cgst := 0, sgst := 0, igst := -5 } ∧
    calculateInclusiveTax (-5) (18/100) = .error "Amount cannot be negative" := by
  have h := splitGST_total_no_validation (-5)
  exact ⟨h.1, (h.2.2 (by norm_num)).2.1⟩

/-! ## Claim C1 -/

theorem latestByGeneratedAt_eq_none {l : List Bill}
    (h : latestByGeneratedAt l = none) : l = [] := by
  cases l with
  | nil => rfl
  | cons b rest =>
      rcases hr : latestByGeneratedAt rest with _ | a
      · simp [latestByGeneratedAt, hr] at h
      · simp only [latestByGeneratedAt, hr] at h
        split_ifs at h

theorem latestByGeneratedAt_mem :
    ∀ {l : List Bill} {b : Bill}, latestByGeneratedAt l = some b → b ∈ l := by
  intro l
  induction l with
  | nil => intro b h; simp [latestByGeneratedAt] at h
  | cons a rest ih =>
      intro b h
      rcases hr : latestByGeneratedAt rest with _ | c
      · simp only [latestByGeneratedAt, hr, Option.some.injEq] at h
        subst h
        exact List.mem_cons_self a rest
      · simp only [latestByGeneratedAt, hr] at h
        split_ifs at h <;> injection h with h <;> subst h
        · exact List.mem_cons_of_mem a (ih hr)
        · exact List.mem_cons_self a rest

theorem latestByGeneratedAt_ge :
    ∀ {l : List Bill} {b : Bill}, latestByGeneratedAt l = some b →
      ∀ x ∈ l, x.generatedAt ≤ b.generatedAt := by
  intro l
  induction l with
  | nil => intro b h; simp [latestByGeneratedAt] at h
  | cons a rest ih =>
      intro b h x hx
      rcases hr : latestByGeneratedAt rest with _ | c
      · simp only [latestByGeneratedAt, hr, Option.some.injEq] at h
        subst h
        rcases List.mem_cons.mp hx with heq | hmem
        · exact heq ▸ le_refl _
        · rw [latestByGeneratedAt_eq_none hr] at hmem
          cases hmem
      · simp only [latestByGeneratedAt, hr] at h
        split_ifs at h with hgt <;> injection h with h <;> subst h
        · rcases List.mem_cons.mp hx with heq | hmem
          · exact heq ▸ le_of_lt hgt
          · exact ih hr x hmem
        · rcases List.mem_cons.mp hx with heq | hmem
          · exact heq ▸ le_refl _
          · exact le_trans (ih hr x hmem) (not_lt.mp hgt)

theorem foldr_max_le {l : List ℕ} {n : ℕ} (h : ∀ x ∈ l, x ≤ n) :
    l.foldr max 0 ≤ n := by
  induction l with
  | nil => simp
  | cons a rest ih =>
      rw [List.foldr_cons]
      exact max_le (h a (by simp)) (ih fun x hx => h x (by simp [hx]))

theorem foldr_max_eq {l : List ℕ} {n : ℕ} (hmem : n ∈ l) (h : ∀ x ∈ l, x ≤ n) :
    l.foldr max 0 = n := by
  induction l with
  | nil => cases hmem
  | cons a rest ih =>
      rw [List.foldr_cons]
      rcases List.mem_cons.mp hmem with heq | hmem2
      · subst heq
        exact max_eq_left (foldr_max_le fun x hx => h x (by simp [hx]))
      · rw [ih hmem2 fun x hx => h x (by simp [hx])]
        exact max_eq_right (h a (by simp))

/-- C1 (corrected).  `createBillNumber` increments the sequence of the MOST
RECENTLY GENERATED bill with the year prefix, not of the highest-numbered
one.  When the parsed sequence numbers of the matching bills are monotone in
`generatedAt` — as they are when every bill was allocated by this function —
the result coincides with the spec's highest-plus-one rule
(`specNextBillNumber`), starting at 0001 when no bill matches. -/
theorem createBillNumber_latest_monotone (s : Store)
    (hparse : ∀ b ∈ matchingBills s, (seqOf b).isSome = true)
    (hmono : ∀ b ∈ matchingBills s, ∀ b2 ∈ matchingBills s,
      b.generatedAt ≤ b2.generatedAt → seqN b ≤ seqN b2) :
    createBillNumber s = specNextBillNumber s := by
  unfold createBillNumber specNextBillNumber
  rcases hl : latestByGeneratedAt (matchingBills s) with _ | b
  · have hlF : latestByGeneratedAt (List.filter
        (fun b => strStartsWith b.billNumber (yearPrefix s.currentYear)) s.bills) =
        none := hl
    simp only [hlF]
    rw [latestByGeneratedAt_eq_none hl]
    rfl
  · have hlF : latestByGeneratedAt (List.filter
        (fun b => strStartsWith b.billNumber (yearPrefix s.currentYear)) s.bills) =
        some b := hl
    have hbmem : b ∈ matchingBills s := latestByGeneratedAt_mem hl
    obtain ⟨n, hn⟩ := Option.isSome_iff_exists.mp (hparse b hbmem)
    have hn2 : jsParseIntNat (billSeqString b.billNumber) = some n := hn
    simp only [hlF, hn2]
    have hmax : ∀ x ∈ (matchingBills s).map seqN, x ≤ seqN b := by
      intro x hx
      obtain ⟨b2, hb2, rfl⟩ := List.mem_map.mp hx
      exact hmono b2 hb2 b hbmem (latestByGeneratedAt_ge hl b2 hb2)
    have hmemmap : seqN b ∈ (matchingBills s).map seqN :=
      List.mem_map_of_mem seqN hbmem
    rw [foldr_max_eq hmemmap hmax]
    have hseq : seqN b = n := by
      unfold seqN seqOf
      rw [hn2]
      rfl
    rw [hseq]

/-- C1 witness: with a single existing bill HMS/2024/0005, the next number
agrees with the spec rule and is HMS/2024/0006. -/
theorem createBillNumber_latest_monotone_witness :
    createBillNumber c1wstore = specNextBillNumber c1wstore ∧
    createBillNumber c1wstore = "HMS/2024/0006" :=
  ⟨createBillNumber_latest_monotone c1wstore (by decide) (by decide), by decide⟩

/-- C1 counterexample: when bill 0005 was generated after bill 0007, the code
allocates 0006 (latest-plus-one), not the spec's 0008 (highest-plus-one). -/
theorem createBillNumber_not_highest_cex :
    createBillNumber c1store = "HMS/2024/0006" ∧
    specNextBillNumber c1store = "HMS/2024/0008" ∧
    createBillNumber c1store ≠ specNextBillNumber c1store := by
  refine ⟨by decide, by decide, by decide⟩

/-! ## List helpers for the aggregation claims -/

theorem filter_map_of_all {α β : Type} (f : α → β) (p : β → Bool) (l : List α)
    (h : ∀ a, p (f a) = true) : (l.map f).filter p = l.map f :=
  List.filter_eq_self.mpr fun b hb => by
    obtain ⟨a, _, rfl⟩ := List.mem_map.mp hb
    exact h a

theorem filter_map_of_none {α β : Type} (f : α → β) (p : β → Bool) (l : List α)
    (h : ∀ a, p (f a) = false) : (l.map f).filter p = [] :=
  List.filter_eq_nil_iff.mpr fun b hb => by
    obtain ⟨a, _, rfl⟩ := List.mem_map.mp hb
    simp [h a]

theorem flatMap_map_comp {α β γ : Type} (f : α → β) (g : β → List γ) (l : List α) :
    (l.map f).flatMap g = l.flatMap fun a => g (f a) := by
  induction l with
  | nil => rfl
  | cons a l ih => simp [List.flatMap_cons, ih]

theorem filter_idem {α : Type} (d : α → Bool) (l : List α) :
    (l.filter d).filter d = l.filter d := by
  induction l with
  | nil => rfl
  | cons a l ih => rcases hd : d a <;> simp [List.filter_cons, hd, ih]

theorem flatMap_completed_eq_map (labs : List LabOrder)
    (h : ∀ o ∈ labs, (o.status == "COMPLETED") = true) :
    (labs.flatMap fun o => if o.status == "COMPLETED" then [labLineOf o] else []) =
      labs.map labLineOf := by
  induction labs with
  | nil => rfl
  | cons o rest ih =>
      rw [List.flatMap_cons, if_pos (h o (by simp)),
        ih fun x hx => h x (by simp [hx]), List.map_cons, List.singleton_append]

/-- Canonical form of a successful aggregation: the consultation-fee block
(present iff the patient has a prescription or a completed lab order),
then one medicine line per dispensed item of the patient, then one lab line
per completed lab order of the patient. -/
theorem aggregateUnbilledItems_eq (s : Store) (visitId : String) (visit : Visit)
    (hv : s.visits.find? (fun v => v.id == visitId) = some visit) :
    aggregateUnbilledItems s visitId = .ok (
      (if patientPrescriptionsOf s visit.patientId ≠ [] ∨
          completedLabOrdersOf s visit.patientId ≠ [] then [consultationFeeLine]
       else []) ++
      (dispensedItemsOf s visit.patientId).map medicineLineOf ++
      (completedLabOrdersOf s visit.patientId).map labLineOf) := by
  unfold aggregateUnbilledItems
  simp only [hv]
  have h1 : (if
      (decide (((patientPrescriptionsOf s visit.patientId).map
          (fun p => { p with items := p.items.filter (fun it => it.dispensed) })).length > 0) ||
        decide ((completedLabOrdersOf s visit.patientId).length > 0)) = true
      then [consultationFeeLine] else []) =
      (if patientPrescriptionsOf s visit.patientId ≠ [] ∨
          completedLabOrdersOf s visit.patientId ≠ [] then [consultationFeeLine]
       else []) := by
    rcases hp : patientPrescriptionsOf s visit.patientId with _ | ⟨p0, ps⟩ <;>
      rcases hlab : completedLabOrdersOf s visit.patientId with _ | ⟨o0, os⟩ <;>
        simp
  have h2 : (((patientPrescriptionsOf s visit.patientId).map
        (fun p => { p with items := p.items.filter (fun it => it.dispensed) })).flatMap
        (fun p => (p.items.filter (fun it => it.dispensed)).map medicineLineOf)) =
      (dispensedItemsOf s visit.patientId).map medicineLineOf := by
    rw [flatMap_map_comp]
    unfold dispensedItemsOf
    rw [List.map_flatMap]
    congr 1
    funext p
    show ((p.items.filter (fun it => it.dispensed)).filter
        (fun it => it.dispensed)).map medicineLineOf = _
    rw [filter_idem]
  have h3 : ((completedLabOrdersOf s visit.patientId).flatMap
        (fun o => if o.status == "COMPLETED" then [labLineOf o] else [])) =
      (completedLabOrdersOf s visit.patientId).map labLineOf := by
    refine flatMap_completed_eq_map _ ?_
    intro o ho
    unfold completedLabOrdersOf at ho
    have hoo := List.of_mem_filter ho
    simp only [Bool.and_eq_true] at hoo
    exact hoo.2
  rw [h1, h2, h3]

/-! ## Claim C4 -/

/-- C4 (corrected).  The consultation-fee line (exactly one, quantity 1,
unit price 300, service rate 18%, tax-exclusive) is included iff the visit's
PATIENT has at least one prescription recorded (regardless of dispensing) or
at least one lab order with status COMPLETED — a merely recorded (e.g.
PENDING) lab order does not trigger the fee, and the check is patient-wide,
not visit-scoped. -/
theorem aggregateUnbilledItems_consultation (s : Store) (visitId : String)
    (visit : Visit) (out : List UnbilledItem)
    (hv : s.visits.find? (fun v => v.id == visitId) = some visit)
    (hout : aggregateUnbilledItems s visitId = .ok out) :
    out.filter (fun i => i.itemType == "CONSULTATION") =
      (if patientPrescriptionsOf s visit.patientId ≠ [] ∨
          completedLabOrdersOf s visit.patientId ≠ [] then [consultationFeeLine]
       else []) := by
  rw [aggregateUnbilledItems_eq s visitId visit hv] at hout
  obtain rfl : _ = out := (Except.ok.injEq _ _).mp hout
  rw [List.filter_append, List.filter_append,
    filter_map_of_none medicineLineOf _ _ (fun a => rfl),
    filter_map_of_none labLineOf _ _ (fun a => rfl),
    List.append_nil, List.append_nil]
  split_ifs <;> rfl

/-- C4 witness: a patient with one (undispensed or dispensed) prescription
gets exactly one consultation-fee line. -/
theorem aggregateUnbilledItems_consultation_witness :
    aggregateUnbilledItems c45store "v1" = .ok c45out ∧
    c45out.filter (fun i => i.itemType == "CONSULTATION") = [consultationFeeLine] := by
  have h := aggregateUnbilledItems_consultation c45store "v1"
    { id := "v1", patientId := "p1" } c45out rfl rfl
  refine ⟨rfl, ?_⟩
  rw [h, if_pos (Or.inl (by decide))]

/-- C4 counterexample: a patient with one PENDING lab order recorded (and
nothing else) gets NO consultation-fee line — the claim would require one,
since a lab order is recorded for the visit. -/
theorem aggregateUnbilledItems_consultation_cex :
    c4store.visits = [{ id := "v1", patientId := "p1" }] ∧
    c4store.labOrders ≠ [] ∧
    (c4store.labOrders.map LabOrder.patientId) = ["p1"] ∧
    aggregateUnbilledItems c4store "v1" = .ok [] := by
  exact ⟨rfl, by decide, rfl, rfl⟩

/-! ## Claim C5 -/

/-- C5 (corrected).  The medicine and lab lines of an aggregation are exactly
the dispensed prescription items and COMPLETED lab orders of the visit's
PATIENT — the data model does not attribute prescriptions or lab orders to
visits, so every visit of the same patient bills the same items. -/
theorem aggregateUnbilledItems_patient_scoped (s : Store) (visitId : String)
    (visit : Visit) (out : List UnbilledItem)
    (hv : s.visits.find? (fun v => v.id == visitId) = some visit)
    (hout : aggregateUnbilledItems s visitId = .ok out) :
    out.filter (fun i => i.itemType == "MEDICINE") =
      (dispensedItemsOf s visit.patientId).map medicineLineOf ∧
    out.filter (fun i => i.itemType == "LAB_TEST") =
      (completedLabOrdersOf s visit.patientId).map labLineOf := by
  rw [aggregateUnbilledItems_eq s visitId visit hv] at hout
  obtain rfl : _ = out := (Except.ok.injEq _ _).mp hout
  constructor
  · rw [List.filter_append, List.filter_append,
      filter_map_of_all medicineLineOf _ _ (fun a => rfl),
      filter_map_of_none labLineOf _ _ (fun a => rfl), List.append_nil]
    have hcons : (if patientPrescriptionsOf s visit.patientId ≠ [] ∨
        completedLabOrdersOf s visit.patientId ≠ [] then [consultationFeeLine]
        else []).filter (fun i => i.itemType == "MEDICINE") = [] := by
      split_ifs <;> rfl
    rw [hcons, List.nil_append]
  · rw [List.filter_append, List.filter_append,
      filter_map_of_none medicineLineOf _ _ (fun a => rfl),
      filter_map_of_all labLineOf _ _ (fun a => rfl), List.append_nil]
    have hcons : (if patientPrescriptionsOf s visit.patientId ≠ [] ∨
        completedLabOrdersOf s visit.patientId ≠ [] then [consultationFeeLine]
        else []).filter (fun i => i.itemType == "LAB_TEST") = [] := by
      split_ifs <;> rfl
    rw [hcons, List.nil_append]

/-- C5 witness: the medicine lines of visit v1 are exactly the patient's
dispensed items. -/
theorem aggregateUnbilledItems_patient_scoped_witness :
    c45out.filter (fun i => i.itemType == "MEDICINE") =
      (dispensedItemsOf c45store "p1").map medicineLineOf ∧
    (dispensedItemsOf c45store "p1").map medicineLineOf = [medicineLineOf wRxItem] :=
  ⟨(aggregateUnbilledItems_patient_scoped c45store "v1"
      { id := "v1", patientId := "p1" } c45out rfl rfl).1, rfl⟩

/-- C5 counterexample: the same dispensed prescription item is billed by BOTH
visits v1 and v2 of the patient, so the bill lines are not the items
"belonging to that visit" — items recorded during another visit of the same
patient appear too. -/
theorem aggregateUnbilledItems_cross_visit_cex :
    c45store.visits = [{ id := "v1", patientId := "p1" },
                       { id := "v2", patientId := "p1" }] ∧
    aggregateUnbilledItems c45store "v1" = .ok c45out ∧
    aggregateUnbilledItems c45store "v2" = .ok c45out ∧
    c45out.filter (fun i => i.itemType == "MEDICINE") = [medicineLineOf wRxItem] :=
  ⟨rfl, rfl, rfl, rfl⟩

/-! ## Claim C7 -/

theorem find?_append_of_none {α : Type} (p : α → Bool) {l₁ : List α} (l₂ : List α)
    (h : l₁.find? p = none) : (l₁ ++ l₂).find? p = l₂.find? p := by
  induction l₁ with
  | nil => rfl
  | cons a l ih =>
      rcases hpa : p a with _ | _
      · simp only [List.cons_append, List.find?, hpa] at h ⊢
        exact ih h
      · simp only [List.find?, hpa] at h
        simp at h

/-- Inversion of a successful `generateBill`: the visit existed, no bill for
the visit existed, the new bill carries the visit id, and the new store is
the old one with unchanged visits and the bill appended. -/
theorem generateBill_ok_inv {s : Store} {visitId generatedBy : String}
    {bill : Bill} {s2 : Store}
    (h : generateBill s visitId generatedBy = .ok (bill, s2)) :
    (∃ v, s.visits.find? (fun x => x.id == visitId) = some v) ∧
    s.bills.find? (fun x => x.visitId == visitId) = none ∧
    bill.visitId = visitId ∧
    s2.visits = s.visits ∧ s2.bills = s.bills ++ [bill] := by
  unfold generateBill at h
  rcases hv : s.visits.find? (fun v => v.id == visitId) with _ | v
  · rw [hv] at h
    simp at h
  · rw [hv] at h
    rcases hb : s.bills.find? (fun b => b.visitId == visitId) with _ | ex
    · rw [hb] at h
      rcases hagg : aggregateUnbilledItems s visitId with e | items
      · rw [hagg] at h
        simp at h
      · rw [hagg] at h
        dsimp only at h
        split_ifs at h with hlen
        rcases hbrk : generateTaxBreakdown (items.map toBillItemInput) with e | brk
        · rw [hbrk] at h
          simp at h
        · rw [hbrk] at h
          simp only [Except.ok.injEq, Prod.mk.injEq] at h
          obtain ⟨hbill, hs2⟩ := h
          subst hbill
          subst hs2
          exact ⟨⟨v, hv⟩, hb, rfl, rfl, rfl⟩
    · rw [hb] at h
      simp at h

/-- C7 (confirmed).  A visit that already has a bill makes `generateBill`
fail with the already-exists error carrying the existing bill's number, and
the failing call leaves the stored state untouched; consequently a second
`generateBill` for the visitId of a successful first call fails with the
already-exists error carrying the first call's bill number. -/
theorem generateBill_already_exists :
    (∀ (s : Store) (visitId g : String) (v : Visit) (b : Bill),
        s.visits.find? (fun x => x.id == visitId) = some v →
        s.bills.find? (fun x => x.visitId == visitId) = some b →
        generateBill s visitId g = .error (.alreadyExists visitId b.billNumber) ∧
        stateAfter s (generateBill s visitId g) = s) ∧
    (∀ (s : Store) (visitId g g2 : String) (bill : Bill) (s2 : Store),
        generateBill s visitId g = .ok (bill, s2) →
        generateBill s2 visitId g2 = .error (.alreadyExists visitId bill.billNumber)) := by
  constructor
  · intro s visitId g v b hv hb
    have herr : generateBill s visitId g =
        .error (.alreadyExists visitId b.billNumber) := by
      unfold generateBill
      simp only [hv, hb]
    refine ⟨herr, ?_⟩
    rw [herr]
    rfl
  · intro s visitId g g2 bill s2 hok
    obtain ⟨⟨v, hv⟩, hnone, hvid, hvisits, hbills⟩ := generateBill_ok_inv hok
    unfold generateBill
    rw [hvisits, hbills]
    simp only [hv]
    rw [find?_append_of_none _ _ hnone]
    simp only [List.find?, hvid, beq_self_eq_true]

/-- C7 witness: calling `generateBill` on `c7store`, whose visit v1 already
carries bill HMS/2024/0001, fails with that number and changes nothing. -/
theorem generateBill_already_exists_witness :
    generateBill c7store "v1" "u2" = .error (.alreadyExists "v1" "HMS/2024/0001") ∧
    stateAfter c7store (generateBill c7store "v1" "u2") = c7store := by
  have h := generateBill_already_exists.1 c7store "v1" "u2"
    { id := "v1", patientId := "p1" } c7bill rfl rfl
  exact ⟨h.1, h.2⟩

end HMS
